import Mathlib

/-!
The authentication and posting flow of bsky-autopost-bot (main.go).

A shallow embedding of `src/main.go`.  The program talks to the outside through
four channels, which are made explicit here:

* the environment `Env`: the HTTP client (`http.Post`, `http.DefaultClient.Do`)
  as a function from the request to either a transport failure or a response,
  and the wall clock (`time.Now`);
* the configuration `Config`: the flags `-v` and `-p` as `flag.Parse` left
  them (a command line it rejects ends the process inside the flag package,
  before any code of the program) and the two environment variables read by
  `init`;
* the `World`: the requests issued so far, what was written to standard output
  and what was handed to the standard logger;
* the exit status of the process.

Library behaviour the program relies on is modelled at the level of values:

* `json.Marshal` is kept symbolic: a request body is represented by the value
  it encodes (`Payload`).  The call cannot fail on `User`; on `PostData` it
  fails only for a clock reading whose year is outside 0..9999, and a reading
  of `time.Now` is identified here by its `UnixNano`, an int64 that spans the
  years 1678 to 2262, so the two `if err != nil` branches after `json.Marshal`
  are dead.
* `http.NewRequest` fails only on an invalid method or URL; both are the
  constants of the source, so that branch is dead as well.
* `json.Decoder.Decode` is modelled on what it finds at the start of the body:
  no JSON value (`Body.malformed`), or a JSON value followed by text that the
  decoder does not examine (`Body.json`).  The value is
  stored into the target struct by the rules of `encoding/json`: object members
  are matched to struct fields by exact name and otherwise case-insensitively,
  they are processed in order, unknown members are skipped, `null` leaves a
  field as it is, a non-string value for a string field is recorded as an
  `UnmarshalTypeError` (the first one is kept) and absent fields keep their
  zero value.
* Go strings are taken to be valid Unicode text (`String`).
-/

namespace BskyAutopost

/-! ## Constants and data model (main.go 14-49) -/

def name : String := "bsky-autopost-bot"

def version : String := "0.0.1"

def url : String := "https://bsky.social/xrpc/com.atproto.server.createSession"

def postUrl : String := "https://bsky.social/xrpc/com.atproto.repo.createRecord"

structure User where
  Identifier : String
  Password : String
deriving DecidableEq

structure Token where
  AccessJwt : String
  RefreshJwt : String
deriving DecidableEq

/-- A reading of the wall clock (a `time.Time` returned by `time.Now`),
identified by its nanoseconds since the Unix epoch. -/
structure Time where
  unixNano : Int
deriving DecidableEq

structure Record where
  Text : String
  CreatedAt : Time
deriving DecidableEq

structure PostData where
  Repo : String
  Collection : String
  Record : Record
deriving DecidableEq

/-- The struct `Response` declared inside `postRecord` (main.go 129-132). -/
structure Response where
  Uri : String
  Cid : String
deriving DecidableEq

/-! ## Go errors -/

/-- The `error` values the program can meet, by origin. -/
inductive Error where
  /-- the value of `fmt.Errorf` with the formatted message -/
  | errorf (msg : String)
  /-- the error of the HTTP client when no response was received -/
  | transport (cause : String)
  /-- the decoder found no well-formed JSON value (syntax error or end of input) -/
  | malformedJSON (msg : String)
  /-- a `json.UnmarshalTypeError`: a JSON value of kind `value` does not fit `target` -/
  | unmarshalType (value : String) (target : String)
deriving DecidableEq

/-- The message of a Go error (its method `Error()`). -/
def Error.message : Error → String
  | .errorf msg => msg
  | .transport cause => cause
  | .malformedJSON msg => msg
  | .unmarshalType value target => "json: cannot unmarshal " ++ value ++ " into Go " ++ target

/-- An error raised while decoding a response body. -/
def Error.isDecode : Error → Bool
  | .malformedJSON _ => true
  | .unmarshalType _ _ => true
  | _ => false

/-- The verb `%d` of package fmt applied to a Go `int`. -/
def fmtD (n : Int) : String := toString n

/-! ## JSON values and `json.Decoder.Decode` into a struct of string fields -/

inductive Json where
  | null
  | bool (b : Bool)
  /-- the number `mantissa * 10 ^ exponent` -/
  | num (mantissa : Int) (exponent : Int)
  | str (s : String)
  | arr (elems : List Json)
  | obj (members : List (String × Json))

/-- The kind of a JSON value as `json.UnmarshalTypeError` names it. -/
def Json.kind : Json → String
  | .null => "null"
  | .bool _ => "bool"
  | .num _ _ => "number"
  | .str _ => "string"
  | .arr _ => "array"
  | .obj _ => "object"

/-- A response body as `json.Decoder.Decode` meets it.  The decoder skips
leading white space, reads one JSON value and stops there: the text after that
value is not examined. -/
inductive Body where
  /-- the body does not begin with a well-formed JSON value (a syntax error, or
  the end of the input before a value is complete); `msg` is the message of the
  decoder -/
  | malformed (msg : String)
  /-- the body begins with the JSON value `v`, which is followed by the text
  `rest` -/
  | json (v : Json) (rest : String)

/-- The white space of JSON: space, tab, line feed and carriage return. -/
def isSpace (c : Char) : Bool :=
  c.toNat = 32 || c.toNat = 9 || c.toNat = 10 || c.toNat = 13

/-- The body as a whole is a JSON text: one JSON value with nothing but white
space after it. -/
def Body.isValidJSON : Body → Bool
  | .malformed _ => false
  | .json _ rest => rest.data.all isSpace

/-- The fold of a rune used by `encoding/json` to match member names without
regard to case: the least rune of its simple-folding orbit.  Only the orbits of
the ASCII letters are modelled (a-z fold to A-Z, and so do U+017F to S and
U+212A to K); every other rune is left alone, which gives the same answer
whenever one side of the comparison is an ASCII name, as all field names of the
program are. -/
def foldRune (c : Char) : Char :=
  if 97 ≤ c.toNat ∧ c.toNat ≤ 122 then Char.ofNat (c.toNat - 32)
  else if c.toNat = 0x17F then Char.ofNat 83
  else if c.toNat = 0x212A then Char.ofNat 75
  else c

def foldName (s : String) : String := String.mk (s.data.map foldRune)

/-- Position of the first element of `names` equal to `key`. -/
def indexOfName (key : String) : List String → Option Nat
  | [] => none
  | n :: ns => if n = key then some 0 else (indexOfName key ns).map Nat.succ

/-- The struct field a member name selects: the field with exactly that name,
otherwise the first field with the same folded name. -/
def fieldIndex (names : List String) (key : String) : Option Nat :=
  match indexOfName key names with
  | some i => some i
  | none => indexOfName (foldName key) (names.map foldName)

/-- A Go struct type all of whose fields are strings, as the decoder sees it:
its name, the JSON names of its fields (from the struct tags) and the
assignment to the i-th field. -/
structure Fields (σ : Type) where
  typeName : String
  names : List String
  set : σ → Nat → String → σ

/-- The decoder keeps the first error it saved. -/
def saveError (saved : Option Error) (e : Error) : Option Error :=
  match saved with
  | none => some e
  | some s => some s

/-- One object member stored into the struct. -/
def decodeMember {σ : Type} (F : Fields σ) (st : σ × Option Error)
    (m : String × Json) : σ × Option Error :=
  match fieldIndex F.names m.1 with
  | none => st
  | some i =>
    match m.2 with
    | .str s => (F.set st.1 i s, st.2)
    | .null => st
    | v => (st.1, saveError st.2
        (.unmarshalType v.kind
          ("struct field " ++ F.typeName ++ "." ++ F.names.getD i "" ++ " of type string")))

/-- The call `json.NewDecoder(body).Decode(&cur)`: the struct afterwards and the
error returned. -/
def Decode {σ : Type} (F : Fields σ) (cur : σ) : Body → σ × Option Error
  | .malformed msg => (cur, some (.malformedJSON msg))
  | .json .null _ => (cur, none)
  | .json (.obj ms) _ => ms.foldl (decodeMember F) (cur, none)
  | .json v _ => (cur, some (.unmarshalType v.kind ("value of type main." ++ F.typeName)))

/-- A JSON value the decoder stores into a Go string field without complaint: a
string, or null, which leaves the field as it is. -/
def Json.fitsString : Json → Bool
  | .str _ => true
  | .null => true
  | _ => false

/-- A member whose name selects a field of the struct, exactly or
case-insensitively, and whose value is neither a string nor null. -/
def misfit {σ : Type} (F : Fields σ) (m : String × Json) : Bool :=
  (fieldIndex F.names m.1).isSome && !m.2.fitsString

/-- The bodies for which decoding into the struct is expected to fail, in the
words of the amended claim C3: the body does not begin with a well-formed JSON
value, or its first value is neither null nor an object, or that object has a
member that selects a field and is neither a string nor null.  The text after
the first value plays no part. -/
def rejects {σ : Type} (F : Fields σ) : Body → Bool
  | .malformed _ => true
  | .json .null _ => false
  | .json (.obj ms) _ => ms.any (misfit F)
  | .json _ _ => true

/-- The body has no object member that selects the i-th field of the struct (a
body whose first value is not an object has no member at all). -/
def lacksField {σ : Type} (F : Fields σ) (i : Nat) : Body → Bool
  | .json (.obj ms) _ => ms.all (fun m => fieldIndex F.names m.1 != some i)
  | _ => true

def Token.fields : Fields Token where
  typeName := "Token"
  names := ["accessJwt", "refreshJwt"]
  set := fun t i s =>
    match i with
    | 0 => { t with AccessJwt := s }
    | 1 => { t with RefreshJwt := s }
    | _ => t

def Response.fields : Fields Response where
  typeName := "Response"
  names := ["uri", "cid"]
  set := fun t i s =>
    match i with
    | 0 => { t with Uri := s }
    | 1 => { t with Cid := s }
    | _ => t

/-! ## HTTP -/

/-- The value passed to `json.Marshal` for a request body: the body of a
request is represented by the value it encodes. -/
inductive Payload where
  | user (u : User)
  | postData (p : PostData)
deriving DecidableEq

/-- An `http.Header` with one value per key, in the order the keys were set. -/
abbrev http.Header := List (String × String)

/-- The method `Set`: replaces the value of `key`, or adds the key. -/
def http.Header.Set : http.Header → String → String → http.Header
  | [], key, value => [(key, value)]
  | (k, v) :: h, key, value =>
    if k = key then (k, value) :: h else (k, v) :: http.Header.Set h key value

/-- The method `Get`: the value of `key`, the empty string when absent. -/
def http.Header.Get : http.Header → String → String
  | [], _ => ""
  | (k, v) :: h, key => if k = key then v else http.Header.Get h key

structure http.Request where
  Method : String
  URL : String
  Header : http.Header
  Body : Payload
deriving DecidableEq

structure http.Response where
  StatusCode : Int
  Body : Body

def http.StatusOK : Int := 200

def http.MethodPost : String := "POST"

/-- The request built by `http.Post(url, contentType, body)`. -/
def http.NewPost (url contentType : String) (body : Payload) : http.Request :=
  { Method := http.MethodPost, URL := url,
    Header := http.Header.Set [] "Content-Type" contentType, Body := body }

/-! ## The outside of the program -/

structure Env where
  /-- the HTTP client: the cause of a transport failure, or the response -/
  Do : http.Request → Except String http.Response
  /-- the value of `time.Now()` -/
  Now : Time

structure Config where
  /-- the flag `-v` -/
  versionFlag : Bool
  /-- the flag `-p` -/
  postFlag : String
  /-- the value of `os.Getenv("BSKY_USERNAME")` -/
  BSKY_USERNAME : String
  /-- the value of `os.Getenv("BSKY_PASSWORD")` -/
  BSKY_PASSWORD : String

structure World where
  /-- the HTTP requests issued so far, oldest first -/
  requests : List http.Request
  /-- the strings written to standard output, oldest first -/
  stdout : List String
  /-- the messages handed to the standard logger, which writes them to standard
  error after its date and time header -/
  logged : List String
deriving DecidableEq

def World.start : World := { requests := [], stdout := [], logged := [] }

def World.send (w : World) (req : http.Request) : World :=
  { w with requests := w.requests ++ [req] }

def World.print (w : World) (s : String) : World :=
  { w with stdout := w.stdout ++ [s] }

def World.log (w : World) (s : String) : World :=
  { w with logged := w.logged ++ [s] }

/-! ## The program (main.go 51-170) -/

/-- The function `init` (main.go 51-62): the value of the global `user`, or
`none` when `log.Fatal` ended the process with status 1. -/
def init (cfg : Config) (w : World) : Option User × World :=
  let user : User := { Identifier := cfg.BSKY_USERNAME, Password := cfg.BSKY_PASSWORD }
  if user.Identifier = "" ∨ user.Password = "" then
    (none, w.log "BSKY_USERNAME and BSKY_PASSWORD are required")
  else
    (some user, w)

/-- The request `getToken` issues (main.go 67-73). -/
def sessionRequest (user : User) : http.Request :=
  let payload := Payload.user user
  http.NewPost url "application/json" payload

/-- The function `getToken` (main.go 64-90): the pair it returns, and the world
afterwards. -/
def getToken (env : Env) (user : User) (w : World) : (Token × Option Error) × World :=
  let token : Token := { AccessJwt := "", RefreshJwt := "" }
  let req := sessionRequest user
  let w := w.send req
  match env.Do req with
  | .error cause => ((token, some (.transport cause)), w)
  | .ok resp =>
    if resp.StatusCode ≠ http.StatusOK then
      ((token, some (.errorf ("status code: " ++ fmtD resp.StatusCode))), w)
    else
      match Decode Token.fields token resp.Body with
      | (token, some err) => ((token, some err), w)
      | (token, none) => ((token, none), w)

/-- The request `postRecord` builds (main.go 93-116). -/
def postRequest (env : Env) (user : User) (token : Token) (text : String) : http.Request :=
  let payload := Payload.postData
    { Repo := user.Identifier, Collection := "app.bsky.feed.post",
      Record := { Text := text, CreatedAt := env.Now } }
  let header : http.Header := []
  let header := header.Set "Authorization" ("Bearer " ++ token.AccessJwt)
  let header := header.Set "Content-Type" "application/json"
  { Method := http.MethodPost, URL := postUrl, Header := header, Body := payload }

/-- The function `postRecord` (main.go 92-143): the error it returns, and the
world afterwards. -/
def postRecord (env : Env) (user : User) (token : Token) (text : String) (w : World) :
    Option Error × World :=
  let req := postRequest env user token text
  let w := w.send req
  match env.Do req with
  | .error cause => (some (.transport cause), w)
  | .ok resp =>
    if resp.StatusCode ≠ http.StatusOK then
      (some (.errorf ("status code: " ++ fmtD resp.StatusCode)), w)
    else
      let res : Response := { Uri := "", Cid := "" }
      match Decode Response.fields res resp.Body with
      | (_, some err) => (some err, w)
      | (res, none) => (none, w.print ("Post: " ++ res.Uri ++ "\n"))

/-- The function `run` (main.go 145-159). -/
def run (env : Env) (user : User) (postFlag : String) (w : World) : Option Error × World :=
  match getToken env user w with
  | ((_, some err), w) => (some err, w)
  | ((token, none), w) =>
    if postFlag ≠ "" then
      match postRecord env user token postFlag w with
      | (some err, w) => (some err, w)
      | (none, w) => (none, w)
    else
      (none, w)

/-- The function `main` (main.go 161-170): the exit status of the process and
the world afterwards. -/
def main (env : Env) (cfg : Config) (user : User) (w : World) : Nat × World :=
  if cfg.versionFlag then
    (0, w.print ("Version: " ++ version ++ "\n"))
  else
    match run env user cfg.postFlag w with
    | (some err, w) => (1, w.log ("Error: " ++ err.message))
    | (none, w) => (0, w)

/-- The whole process: `init`, then `main`, from the empty world. -/
def program (env : Env) (cfg : Config) : Nat × World :=
  match init cfg World.start with
  | (none, w) => (1, w)
  | (some user, w) => main env cfg user w

/-! ## Mocked servers and sample inputs -/

/-- A mocked server: it answers a request to the session endpoint with
`session` and any other request with `record`; the clock reads `now`. -/
def mockEnv (session record : http.Response) (now : Time) : Env where
  Do := fun req => if req.URL = url then .ok session else .ok record
  Now := now

def alice : User := { Identifier := "alice.bsky.social", Password := "hunter2" }

def sampleToken : Token := { AccessJwt := "AAA", RefreshJwt := "BBB" }

def sampleTime : Time := { unixNano := 1700000000000000000 }

/-- The configuration of a start without `-v`, with the given credentials in
the environment and `text` as the value of `-p`. -/
def runConfig (user : User) (text : String) : Config :=
  { versionFlag := false, postFlag := text,
    BSKY_USERNAME := user.Identifier, BSKY_PASSWORD := user.Password }

def sessionMembers : List (String × Json) :=
  [("accessJwt", .str "AAA"), ("refreshJwt", .str "BBB")]

def sessionBody : Body := .json (.obj sessionMembers) ""

def recordBody : Body :=
  .json (.obj [("uri", .str "at://did:plc:xyz/app.bsky.feed.post/123"), ("cid", .str "bafy...")])
    ""

def emptyObject : Body := .json (.obj []) ""

/-- The members of a session response that carries, after the two documented
members, a third one whose name differs from accessJwt in case only. -/
def shadowedMembers : List (String × Json) :=
  [("accessJwt", .str "AAA"), ("refreshJwt", .str "BBB"), ("ACCESSJWT", .str "X")]

def shadowedBody : Body := .json (.obj shadowedMembers) ""

/-- A server that accepts the credentials and creates the record. -/
def happyEnv : Env :=
  mockEnv { StatusCode := 200, Body := sessionBody } { StatusCode := 200, Body := recordBody }
    sampleTime

/-- A server that answers every request with status 401. -/
def deniedEnv : Env :=
  mockEnv { StatusCode := 401, Body := emptyObject } { StatusCode := 401, Body := emptyObject }
    sampleTime

/-- A server that accepts the credentials and answers the record creation with
status 401. -/
def postDeniedEnv : Env :=
  mockEnv { StatusCode := 200, Body := sessionBody } { StatusCode := 401, Body := emptyObject }
    sampleTime

/-- A server that answers every request with status 200 and the body `{}`. -/
def emptyObjectEnv : Env :=
  mockEnv { StatusCode := 200, Body := emptyObject } { StatusCode := 200, Body := emptyObject }
    sampleTime

/-- A server that answers every request with status 200 and a body that is not
JSON. -/
def garbageEnv : Env :=
  mockEnv { StatusCode := 200, Body := .malformed "invalid character" }
    { StatusCode := 200, Body := .malformed "invalid character" } sampleTime

/-- A server whose session response is `shadowedBody`. -/
def shadowedEnv : Env :=
  mockEnv { StatusCode := 200, Body := shadowedBody } { StatusCode := 200, Body := recordBody }
    sampleTime

/-- A session body and a record body that are complete objects followed by the
text "garbage", which makes each body as a whole invalid JSON. -/
def trailingEnv : Env :=
  mockEnv { StatusCode := 200, Body := .json (.obj sessionMembers) "garbage" }
    { StatusCode := 200,
      Body := .json (.obj [("uri", .str "at://did:plc:xyz/app.bsky.feed.post/123")]) "garbage" }
    sampleTime

/-- A server whose session body is the object with the single member
accessJwt = "A" and whose record body is the object with the single member
cid = "c": each lacks one field. -/
def partialEnv : Env :=
  mockEnv { StatusCode := 200, Body := .json (.obj [("accessJwt", .str "A")]) "" }
    { StatusCode := 200, Body := .json (.obj [("cid", .str "c")]) "" } sampleTime

/-- A server whose session body is the empty array and whose record body is the
object with the single member uri = 5. -/
def misfitEnv : Env :=
  mockEnv { StatusCode := 200, Body := .json (.arr []) "" }
    { StatusCode := 200, Body := .json (.obj [("uri", .num 5 0)]) "" } sampleTime

/-! ## Stepping lemmas -/

theorem getToken_transport (env : Env) (user : User) (w : World) (cause : String)
    (h : env.Do (sessionRequest user) = .error cause) :
    getToken env user w
      = (({ AccessJwt := "", RefreshJwt := "" }, some (.transport cause)),
          w.send (sessionRequest user)) := by
  simp only [getToken, h]

theorem getToken_status (env : Env) (user : User) (w : World) (resp : http.Response)
    (h : env.Do (sessionRequest user) = .ok resp) (hs : resp.StatusCode ≠ http.StatusOK) :
    getToken env user w
      = (({ AccessJwt := "", RefreshJwt := "" },
            some (.errorf ("status code: " ++ fmtD resp.StatusCode))),
          w.send (sessionRequest user)) := by
  simp only [getToken, h, hs, ne_eq, not_false_eq_true, if_true]

theorem getToken_decode (env : Env) (user : User) (w : World) (resp : http.Response)
    (h : env.Do (sessionRequest user) = .ok resp) (hs : resp.StatusCode = http.StatusOK) :
    getToken env user w
      = (Decode Token.fields { AccessJwt := "", RefreshJwt := "" } resp.Body,
          w.send (sessionRequest user)) := by
  simp only [getToken, h, hs, ne_eq, not_true_eq_false, if_false]
  split <;> simp_all

theorem getToken_world (env : Env) (user : User) (w : World) :
    (getToken env user w).2 = w.send (sessionRequest user) := by
  cases h : env.Do (sessionRequest user) with
  | error cause => rw [getToken_transport env user w cause h]
  | ok resp =>
    by_cases hs : resp.StatusCode = http.StatusOK
    · rw [getToken_decode env user w resp h hs]
    · rw [getToken_status env user w resp h hs]

theorem getToken_result_world (env : Env) (user : User) (w w2 : World) :
    (getToken env user w).1 = (getToken env user w2).1 := by
  cases h : env.Do (sessionRequest user) with
  | error cause => rw [getToken_transport env user w cause h, getToken_transport env user w2 cause h]
  | ok resp =>
    by_cases hs : resp.StatusCode = http.StatusOK
    · rw [getToken_decode env user w resp h hs, getToken_decode env user w2 resp h hs]
    · rw [getToken_status env user w resp h hs, getToken_status env user w2 resp h hs]

theorem postRecord_transport (env : Env) (user : User) (token : Token) (text : String)
    (w : World) (cause : String)
    (h : env.Do (postRequest env user token text) = .error cause) :
    postRecord env user token text w
      = (some (.transport cause), w.send (postRequest env user token text)) := by
  simp only [postRecord, h]

theorem postRecord_status (env : Env) (user : User) (token : Token) (text : String)
    (w : World) (resp : http.Response)
    (h : env.Do (postRequest env user token text) = .ok resp)
    (hs : resp.StatusCode ≠ http.StatusOK) :
    postRecord env user token text w
      = (some (.errorf ("status code: " ++ fmtD resp.StatusCode)),
          w.send (postRequest env user token text)) := by
  simp only [postRecord, h, hs, ne_eq, not_false_eq_true, if_true]

theorem postRecord_decode_error (env : Env) (user : User) (token : Token) (text : String)
    (w : World) (resp : http.Response) (res : Response) (err : Error)
    (h : env.Do (postRequest env user token text) = .ok resp)
    (hs : resp.StatusCode = http.StatusOK)
    (hd : Decode Response.fields { Uri := "", Cid := "" } resp.Body = (res, some err)) :
    postRecord env user token text w
      = (some err, w.send (postRequest env user token text)) := by
  simp only [postRecord, h, hs, hd, ne_eq, not_true_eq_false, if_false]

theorem postRecord_decode_ok (env : Env) (user : User) (token : Token) (text : String)
    (w : World) (resp : http.Response) (res : Response)
    (h : env.Do (postRequest env user token text) = .ok resp)
    (hs : resp.StatusCode = http.StatusOK)
    (hd : Decode Response.fields { Uri := "", Cid := "" } resp.Body = (res, none)) :
    postRecord env user token text w
      = (none, (w.send (postRequest env user token text)).print ("Post: " ++ res.Uri ++ "\n")) := by
  simp only [postRecord, h, hs, hd, ne_eq, not_true_eq_false, if_false]

theorem postRecord_requests (env : Env) (user : User) (token : Token) (text : String)
    (w : World) :
    (postRecord env user token text w).2.requests
      = w.requests ++ [postRequest env user token text] := by
  cases h : env.Do (postRequest env user token text) with
  | error cause => rw [postRecord_transport env user token text w cause h]; rfl
  | ok resp =>
    by_cases hs : resp.StatusCode = http.StatusOK
    · cases hd : Decode Response.fields { Uri := "", Cid := "" } resp.Body with
      | mk res oerr =>
        cases oerr with
        | none => rw [postRecord_decode_ok env user token text w resp res h hs hd]; rfl
        | some err => rw [postRecord_decode_error env user token text w resp res err h hs hd]; rfl
    · rw [postRecord_status env user token text w resp h hs]; rfl

theorem run_auth_error (env : Env) (user : User) (text : String) (w : World)
    (t : Token) (err : Error) (h : (getToken env user w).1 = (t, some err)) :
    run env user text w = (some err, w.send (sessionRequest user)) := by
  have hw := getToken_world env user w
  unfold run
  rcases hg : getToken env user w with ⟨⟨t2, e2⟩, w2⟩
  rw [hg] at h hw
  simp only [Prod.mk.injEq] at h hw
  obtain ⟨_, rfl⟩ := h
  subst hw
  rfl

theorem run_no_text (env : Env) (user : User) (w : World) (token : Token)
    (h : (getToken env user w).1 = (token, none)) :
    run env user "" w = (none, w.send (sessionRequest user)) := by
  have hw := getToken_world env user w
  unfold run
  rcases hg : getToken env user w with ⟨⟨t2, e2⟩, w2⟩
  rw [hg] at h hw
  simp only [Prod.mk.injEq] at h hw
  obtain ⟨_, rfl⟩ := h
  subst hw
  rfl

theorem run_post (env : Env) (user : User) (text : String) (w : World) (token : Token)
    (h : (getToken env user w).1 = (token, none)) (htext : text ≠ "") :
    run env user text w = postRecord env user token text (w.send (sessionRequest user)) := by
  have hw := getToken_world env user w
  unfold run
  rcases hg : getToken env user w with ⟨⟨t2, e2⟩, w2⟩
  rw [hg] at h hw
  simp only [Prod.mk.injEq] at h hw
  obtain ⟨rfl, rfl⟩ := h
  subst hw
  simp only [htext, ne_eq, not_false_eq_true, if_true]
  rcases postRecord env user t2 text (w.send (sessionRequest user)) with ⟨e, w3⟩
  cases e <;> rfl

theorem init_some (cfg : Config) (w : World)
    (hid : cfg.BSKY_USERNAME ≠ "") (hpw : cfg.BSKY_PASSWORD ≠ "") :
    init cfg w
      = (some { Identifier := cfg.BSKY_USERNAME, Password := cfg.BSKY_PASSWORD }, w) := by
  simp [init, hid, hpw]

theorem init_none (cfg : Config) (w : World)
    (h : cfg.BSKY_USERNAME = "" ∨ cfg.BSKY_PASSWORD = "") :
    init cfg w = (none, w.log "BSKY_USERNAME and BSKY_PASSWORD are required") := by
  simp [init, h]

theorem program_run (env : Env) (cfg : Config)
    (hv : cfg.versionFlag = false)
    (hid : cfg.BSKY_USERNAME ≠ "") (hpw : cfg.BSKY_PASSWORD ≠ "") :
    program env cfg
      = match run env { Identifier := cfg.BSKY_USERNAME, Password := cfg.BSKY_PASSWORD }
          cfg.postFlag World.start with
        | (some err, w) => (1, w.log ("Error: " ++ err.message))
        | (none, w) => (0, w) := by
  simp [program, init_some cfg World.start hid hpw, main, hv]

theorem decodeMember_unknown {σ : Type} (F : Fields σ) (st : σ × Option Error)
    (m : String × Json) (h : fieldIndex F.names m.1 = none) :
    decodeMember F st m = st := by
  simp only [decodeMember, h]

theorem decodeMember_accessJwt (t : Token) (e : Option Error) (a : String) :
    decodeMember Token.fields (t, e) ("accessJwt", .str a)
      = ({ t with AccessJwt := a }, e) := rfl

theorem decodeMember_refreshJwt (t : Token) (e : Option Error) (r : String) :
    decodeMember Token.fields (t, e) ("refreshJwt", .str r)
      = ({ t with RefreshJwt := r }, e) := rfl

/-- Decoding an object in which the only members that select a field of `Token`
are the two documented ones: no error, and each field present in the object
holds its value. -/
theorem decode_token_members (a r : String) (ms : List (String × Json)) :
    ∀ t : Token,
    (∀ m ∈ ms, fieldIndex Token.fields.names m.1 ≠ none →
      m = ("accessJwt", Json.str a) ∨ m = ("refreshJwt", Json.str r)) →
    ∃ t2 : Token, ms.foldl (decodeMember Token.fields) (t, none) = (t2, none) ∧
      (("accessJwt", Json.str a) ∈ ms → t2.AccessJwt = a) ∧
      (("accessJwt", Json.str a) ∉ ms → t2.AccessJwt = t.AccessJwt) ∧
      (("refreshJwt", Json.str r) ∈ ms → t2.RefreshJwt = r) ∧
      (("refreshJwt", Json.str r) ∉ ms → t2.RefreshJwt = t.RefreshJwt) := by
  induction ms with
  | nil => intro t _; exact ⟨t, rfl, by simp, by simp, by simp, by simp⟩
  | cons m ms ih =>
    intro t huniq
    have hrest : ∀ m2 ∈ ms, fieldIndex Token.fields.names m2.1 ≠ none →
        m2 = ("accessJwt", Json.str a) ∨ m2 = ("refreshJwt", Json.str r) :=
      fun m2 hm2 => huniq m2 (List.mem_cons_of_mem _ hm2)
    have hne : (("accessJwt", Json.str a) : String × Json) ≠ ("refreshJwt", Json.str r) := by
      intro h
      have h1 : ("accessJwt" : String) = "refreshJwt" := congrArg Prod.fst h
      exact absurd h1 (by decide)
    cases hfi : fieldIndex Token.fields.names m.1 with
    | none =>
      have hma : m ≠ ("accessJwt", Json.str a) := by
        intro h; rw [h] at hfi
        have h1 : fieldIndex Token.fields.names "accessJwt" = none := hfi
        exact absurd h1 (by decide)
      have hmr : m ≠ ("refreshJwt", Json.str r) := by
        intro h; rw [h] at hfi
        have h1 : fieldIndex Token.fields.names "refreshJwt" = none := hfi
        exact absurd h1 (by decide)
      obtain ⟨t2, h0, h1, h2, h3, h4⟩ := ih t hrest
      refine ⟨t2, ?_, ?_, ?_, ?_, ?_⟩
      · rw [List.foldl_cons, decodeMember_unknown _ _ _ hfi]; exact h0
      · intro h; rcases List.mem_cons.1 h with h | h
        · exact absurd h.symm hma
        · exact h1 h
      · intro h; exact h2 (fun hc => h (List.mem_cons_of_mem _ hc))
      · intro h; rcases List.mem_cons.1 h with h | h
        · exact absurd h.symm hmr
        · exact h3 h
      · intro h; exact h4 (fun hc => h (List.mem_cons_of_mem _ hc))
    | some i =>
      have hm := huniq m (List.mem_cons_self _ _) (by rw [hfi]; exact Option.some_ne_none i)
      rcases hm with rfl | rfl
      · obtain ⟨t2, h0, h1, h2, h3, h4⟩ := ih { t with AccessJwt := a } hrest
        refine ⟨t2, ?_, ?_, ?_, ?_, ?_⟩
        · rw [List.foldl_cons, decodeMember_accessJwt]; exact h0
        · intro _
          by_cases hc : ("accessJwt", Json.str a) ∈ ms
          · exact h1 hc
          · exact h2 hc
        · intro h; exact absurd (List.mem_cons_self _ _) h
        · intro h; rcases List.mem_cons.1 h with h | h
          · exact absurd h.symm hne
          · exact h3 h
        · intro h; exact h4 (fun hc => h (List.mem_cons_of_mem _ hc))
      · obtain ⟨t2, h0, h1, h2, h3, h4⟩ := ih { t with RefreshJwt := r } hrest
        refine ⟨t2, ?_, ?_, ?_, ?_, ?_⟩
        · rw [List.foldl_cons, decodeMember_refreshJwt]; exact h0
        · intro h; rcases List.mem_cons.1 h with h | h
          · exact absurd h hne
          · exact h1 h
        · intro h; exact h2 (fun hc => h (List.mem_cons_of_mem _ hc))
        · intro _
          by_cases hc : ("refreshJwt", Json.str r) ∈ ms
          · exact h3 hc
          · exact h4 hc
        · intro h; exact absurd (List.mem_cons_self _ _) h

theorem decode_unknown_members {σ : Type} (F : Fields σ) (ms : List (String × Json)) :
    ∀ st : σ × Option Error, (∀ m ∈ ms, fieldIndex F.names m.1 = none) →
      ms.foldl (decodeMember F) st = st := by
  induction ms with
  | nil => intro st _; rfl
  | cons m ms ih =>
    intro st h
    rw [List.foldl_cons, decodeMember_unknown F st m (h m (List.mem_cons_self _ _))]
    exact ih st (fun m2 hm2 => h m2 (List.mem_cons_of_mem _ hm2))

theorem program_fatal (env : Env) (cfg : Config)
    (h : cfg.BSKY_USERNAME = "" ∨ cfg.BSKY_PASSWORD = "") :
    program env cfg
      = (1, { requests := [], stdout := [],
              logged := ["BSKY_USERNAME and BSKY_PASSWORD are required"] }) := by
  unfold program
  rw [init_none cfg World.start h]
  rfl

theorem program_runConfig (env : Env) (user : User) (text : String)
    (hid : user.Identifier ≠ "") (hpw : user.Password ≠ "") :
    program env (runConfig user text)
      = match run env user text World.start with
        | (some err, w) => (1, w.log ("Error: " ++ err.message))
        | (none, w) => (0, w) :=
  program_run env (runConfig user text) rfl hid hpw

theorem decodeMember_error_kept {σ : Type} (F : Fields σ) (st : σ × Option Error)
    (m : String × Json) (e : Error) (h : st.2 = some e) :
    (decodeMember F st m).2 = some e := by
  obtain ⟨k, v⟩ := m
  cases hfi : fieldIndex F.names k with
  | none => simp only [decodeMember, hfi]; exact h
  | some i => cases v <;> simp [decodeMember, hfi, h, saveError]

theorem decodeMember_fit {σ : Type} (F : Fields σ) (st : σ × Option Error)
    (m : String × Json) (h : misfit F m = false) :
    (decodeMember F st m).2 = st.2 := by
  obtain ⟨k, v⟩ := m
  cases hfi : fieldIndex F.names k with
  | none => simp only [decodeMember, hfi]
  | some i => cases v <;> simp_all [decodeMember, misfit, Json.fitsString]

theorem decodeMember_misfit {σ : Type} (F : Fields σ) (st : σ × Option Error)
    (m : String × Json) (h : misfit F m = true) (hst : st.2 = none) :
    ∃ e : Error, (decodeMember F st m).2 = some e ∧ e.isDecode = true := by
  obtain ⟨k, v⟩ := m
  cases hfi : fieldIndex F.names k with
  | none => simp [misfit, hfi] at h
  | some i =>
    cases v <;>
      simp_all [decodeMember, misfit, Json.fitsString, saveError, Error.isDecode]

theorem decodeMember_keeps {σ : Type} (F : Fields σ) (proj : σ → String) (i : Nat)
    (hproj : ∀ (t : σ) (j : Nat) (s : String), j ≠ i → proj (F.set t j s) = proj t)
    (st : σ × Option Error) (m : String × Json)
    (hm : fieldIndex F.names m.1 ≠ some i) :
    proj (decodeMember F st m).1 = proj st.1 := by
  obtain ⟨k, v⟩ := m
  cases hfi : fieldIndex F.names k with
  | none => simp only [decodeMember, hfi]
  | some j =>
    have hj : j ≠ i := fun hji => hm (by rw [← hji]; exact hfi)
    cases v <;> simp [decodeMember, hfi, hproj _ _ _ hj]

theorem decode_fold_error_kept {σ : Type} (F : Fields σ) (ms : List (String × Json))
    (e : Error) :
    ∀ st : σ × Option Error, st.2 = some e →
      (ms.foldl (decodeMember F) st).2 = some e := by
  induction ms with
  | nil => intro st h; exact h
  | cons m ms ih =>
    intro st h
    rw [List.foldl_cons]
    exact ih _ (decodeMember_error_kept F st m e h)

theorem decode_fold_fit {σ : Type} (F : Fields σ) (ms : List (String × Json)) :
    ∀ st : σ × Option Error, (∀ m ∈ ms, misfit F m = false) →
      (ms.foldl (decodeMember F) st).2 = st.2 := by
  induction ms with
  | nil => intro st _; rfl
  | cons m ms ih =>
    intro st h
    rw [List.foldl_cons, ih _ (fun m2 hm2 => h m2 (List.mem_cons_of_mem _ hm2))]
    exact decodeMember_fit F st m (h m (List.mem_cons_self _ _))

theorem decode_fold_misfit {σ : Type} (F : Fields σ) (ms : List (String × Json)) :
    ∀ st : σ × Option Error, st.2 = none → (∃ m ∈ ms, misfit F m = true) →
      ∃ e : Error, (ms.foldl (decodeMember F) st).2 = some e ∧ e.isDecode = true := by
  induction ms with
  | nil => intro st _ h; obtain ⟨m, hm, _⟩ := h; exact absurd hm (List.not_mem_nil m)
  | cons m ms ih =>
    intro st hst h
    rw [List.foldl_cons]
    cases hmis : misfit F m with
    | true =>
      obtain ⟨e, he, hdec⟩ := decodeMember_misfit F st m hmis hst
      exact ⟨e, decode_fold_error_kept F ms e _ he, hdec⟩
    | false =>
      apply ih
      · rw [decodeMember_fit F st m hmis]; exact hst
      · obtain ⟨m2, hm2, hbad⟩ := h
        rcases List.mem_cons.1 hm2 with rfl | hm2
        · rw [hmis] at hbad; exact absurd hbad (by decide)
        · exact ⟨m2, hm2, hbad⟩

theorem decode_fold_keeps {σ : Type} (F : Fields σ) (proj : σ → String) (i : Nat)
    (hproj : ∀ (t : σ) (j : Nat) (s : String), j ≠ i → proj (F.set t j s) = proj t)
    (ms : List (String × Json)) :
    ∀ st : σ × Option Error, (∀ m ∈ ms, fieldIndex F.names m.1 ≠ some i) →
      proj (ms.foldl (decodeMember F) st).1 = proj st.1 := by
  induction ms with
  | nil => intro st _; rfl
  | cons m ms ih =>
    intro st h
    rw [List.foldl_cons, ih _ (fun m2 hm2 => h m2 (List.mem_cons_of_mem _ hm2))]
    exact decodeMember_keeps F proj i hproj st m (h m (List.mem_cons_self _ _))

/-- A body that `rejects` describes makes `Decode` return a decode error. -/
theorem Decode_rejected {σ : Type} (F : Fields σ) (cur : σ) (body : Body)
    (h : rejects F body = true) :
    ∃ (t : σ) (e : Error), Decode F cur body = (t, some e) ∧ e.isDecode = true := by
  cases body with
  | malformed msg => exact ⟨cur, _, rfl, rfl⟩
  | json v rest =>
    cases v with
    | null => simp [rejects] at h
    | obj ms =>
      have hex : ∃ m ∈ ms, misfit F m = true := by
        simpa [rejects, List.any_eq_true] using h
      obtain ⟨e, he, hdec⟩ := decode_fold_misfit F ms (cur, none) rfl hex
      exact ⟨(ms.foldl (decodeMember F) (cur, none)).1, e, Prod.ext rfl he, hdec⟩
    | bool b => exact ⟨cur, _, rfl, rfl⟩
    | num a b => exact ⟨cur, _, rfl, rfl⟩
    | str x => exact ⟨cur, _, rfl, rfl⟩
    | arr xs => exact ⟨cur, _, rfl, rfl⟩

/-- A body that `rejects` does not describe makes `Decode` return no error, and
a field for which the body has no member keeps its value. -/
theorem Decode_accepted {σ : Type} (F : Fields σ) (cur : σ) (body : Body)
    (h : rejects F body = false) :
    ∃ t : σ, Decode F cur body = (t, none) ∧
      ∀ (proj : σ → String) (i : Nat),
        (∀ (t : σ) (j : Nat) (s : String), j ≠ i → proj (F.set t j s) = proj t) →
        lacksField F i body = true → proj t = proj cur := by
  cases body with
  | malformed msg => simp [rejects] at h
  | json v rest =>
    cases v with
    | null => exact ⟨cur, rfl, fun _ _ _ _ => rfl⟩
    | obj ms =>
      have hall : ∀ m ∈ ms, misfit F m = false := by
        simpa [rejects, List.any_eq_false] using h
      refine ⟨(ms.foldl (decodeMember F) (cur, none)).1,
        Prod.ext rfl (decode_fold_fit F ms (cur, none) hall), ?_⟩
      intro proj i hproj hlack
      have hl : ∀ m ∈ ms, fieldIndex F.names m.1 ≠ some i := by
        simpa [lacksField, List.all_eq_true] using hlack
      exact decode_fold_keeps F proj i hproj ms (cur, none) hl
    | bool b => simp [rejects] at h
    | num a b => simp [rejects] at h
    | str x => simp [rejects] at h
    | arr xs => simp [rejects] at h

theorem Token.set_keeps_AccessJwt (t : Token) (j : Nat) (s : String) (h : j ≠ 0) :
    (Token.fields.set t j s).AccessJwt = t.AccessJwt := by
  match j, h with
  | 1, _ => rfl
  | _ + 2, _ => rfl

theorem Token.set_keeps_RefreshJwt (t : Token) (j : Nat) (s : String) (h : j ≠ 1) :
    (Token.fields.set t j s).RefreshJwt = t.RefreshJwt := by
  match j, h with
  | 0, _ => rfl
  | _ + 2, _ => rfl

theorem Response.set_keeps_Uri (t : Response) (j : Nat) (s : String) (h : j ≠ 0) :
    (Response.fields.set t j s).Uri = t.Uri := by
  match j, h with
  | 1, _ => rfl
  | _ + 2, _ => rfl

/-! ## The claims -/

/-- Claim C1, as stated, fails: the session response with status 200 whose body
is the object with members accessJwt = "AAA", refreshJwt = "BBB" and
ACCESSJWT = "X" has the string fields accessJwt = "AAA" and refreshJwt = "BBB",
yet `getToken` returns the token with AccessJwt "X", because the decoder also
matches member names case-insensitively and the later member wins. -/
theorem getToken_shadowed_member :
    (alice.Identifier ≠ "" ∧ alice.Password ≠ "") ∧
    shadowedEnv.Do (sessionRequest alice)
      = .ok { StatusCode := 200, Body := .json (.obj shadowedMembers) "" } ∧
    ("accessJwt", Json.str "AAA") ∈ shadowedMembers ∧
    ("refreshJwt", Json.str "BBB") ∈ shadowedMembers ∧
    (getToken shadowedEnv alice World.start).1
      = ({ AccessJwt := "X", RefreshJwt := "BBB" }, none) ∧
    (getToken shadowedEnv alice World.start).1
      ≠ ({ AccessJwt := "AAA", RefreshJwt := "BBB" }, none) := by
  refine ⟨⟨by decide, by decide⟩, rfl, ?_, ?_, by decide, by decide⟩
  · simp [shadowedMembers]
  · simp [shadowedMembers]

/-- Claim C1, amended: for every identifier and secret, and for every session
response with status 200 whose body is a JSON object with the string members
accessJwt = a and refreshJwt = r and with no other member whose name selects a
field of Token (exactly or case-insensitively), `getToken` returns the token
with AccessJwt a and RefreshJwt r and no error, having issued the session
request (the text that follows the object in the body plays no part). -/
theorem getToken_returns_decoded_token (env : Env) (user : User) (w : World)
    (ms : List (String × Json)) (rest : String) (a r : String)
    (hresp : env.Do (sessionRequest user)
      = .ok { StatusCode := 200, Body := .json (.obj ms) rest })
    (ha : ("accessJwt", Json.str a) ∈ ms) (hr : ("refreshJwt", Json.str r) ∈ ms)
    (huniq : ∀ m ∈ ms, fieldIndex Token.fields.names m.1 ≠ none →
      m = ("accessJwt", Json.str a) ∨ m = ("refreshJwt", Json.str r)) :
    getToken env user w
      = (({ AccessJwt := a, RefreshJwt := r }, none), w.send (sessionRequest user)) := by
  rw [getToken_decode env user w _ hresp rfl]
  obtain ⟨t2, h0, h1, _, h3, _⟩ :=
    decode_token_members a r ms { AccessJwt := "", RefreshJwt := "" } huniq
  have ht : t2 = { AccessJwt := a, RefreshJwt := r } := by
    cases t2
    simp only [Token.mk.injEq]
    exact ⟨h1 ha, h3 hr⟩
  show (List.foldl (decodeMember Token.fields) _ ms, _) = _
  rw [h0, ht]

/-- Claim C1, the literal case: the session response
with members accessJwt = "AAA" and refreshJwt = "BBB" for alice.bsky.social
yields the token AAA, BBB and no error. -/
theorem getToken_returns_decoded_token_witness :
    getToken happyEnv alice World.start
      = (({ AccessJwt := "AAA", RefreshJwt := "BBB" }, none),
          World.start.send (sessionRequest alice)) :=
  getToken_returns_decoded_token happyEnv alice World.start sessionMembers "" "AAA" "BBB" rfl
    (by simp [sessionMembers]) (by simp [sessionMembers])
    (by intro m hm _; simpa [sessionMembers] using hm)

/-- Claim C2: for every status code s other than 200, when the session endpoint
answers with s `getToken` fails, and when the record-creation endpoint answers
with s `postRecord` fails; in both cases the error is the one whose message is
"status code: " followed by the decimal numeral of s, whatever the body of the
response is (the body is not decoded, nothing is printed). -/
theorem non_ok_status_reported (env : Env) (user : User) (token : Token) (text : String)
    (w : World) (s : Int) (hs : s ≠ 200) :
    (∀ body : Body, env.Do (sessionRequest user) = .ok { StatusCode := s, Body := body } →
      getToken env user w
        = (({ AccessJwt := "", RefreshJwt := "" }, some (.errorf ("status code: " ++ fmtD s))),
            w.send (sessionRequest user))) ∧
    (∀ body : Body,
      env.Do (postRequest env user token text) = .ok { StatusCode := s, Body := body } →
      postRecord env user token text w
        = (some (.errorf ("status code: " ++ fmtD s)),
            w.send (postRequest env user token text))) ∧
    (Error.errorf ("status code: " ++ fmtD s)).message = "status code: " ++ fmtD s ∧
    fmtD s = (if 0 ≤ s then Nat.repr s.toNat else "-" ++ Nat.repr (-s).toNat) := by
  refine ⟨?_, ?_, rfl, ?_⟩
  · intro body h
    exact getToken_status env user w _ h hs
  · intro body h
    exact postRecord_status env user token text w _ h hs
  · cases s with
    | ofNat n => simp [fmtD, toString, Int.repr]
    | negSucc n =>
      have h : ¬ (0 : Int) ≤ Int.negSucc n := by
        simp [Int.negSucc_lt_zero]
      simp [fmtD, toString, Int.repr, h, Int.neg_negSucc]

/-- Claim C2 at status 401: both operations fail with the message
"status code: 401". -/
theorem non_ok_status_reported_witness :
    getToken deniedEnv alice World.start
      = (({ AccessJwt := "", RefreshJwt := "" }, some (.errorf "status code: 401")),
          World.start.send (sessionRequest alice)) ∧
    postRecord deniedEnv alice sampleToken "hello world" World.start
      = (some (.errorf "status code: 401"),
          World.start.send (postRequest deniedEnv alice sampleToken "hello world")) ∧
    (Error.errorf "status code: 401").message = "status code: 401" :=
  have h := non_ok_status_reported deniedEnv alice sampleToken "hello world" World.start 401
    (by decide)
  ⟨h.1 emptyObject rfl, h.2.1 emptyObject rfl, rfl⟩

/-- Claim C3, as stated, fails on both of its parts.  The body `{}` is valid
JSON that lacks every field, and with status 200 `getToken` returns the empty
token and no error and `postRecord` prints the line "Post: " with an empty uri
and returns no error.  A body made of a complete object followed by the text
"garbage" is not valid JSON, and with status 200 `getToken` returns the token
of the object and no error and `postRecord` returns no error, because the
decoder stops after the first value. -/
theorem incomplete_or_trailing_body_is_accepted :
    (emptyObjectEnv.Do (sessionRequest alice)
      = .ok { StatusCode := 200, Body := .json (.obj []) "" } ∧
    emptyObjectEnv.Do (postRequest emptyObjectEnv alice sampleToken "hello world")
      = .ok { StatusCode := 200, Body := .json (.obj []) "" } ∧
    (Body.json (.obj []) "").isValidJSON = true ∧
    lacksField Token.fields 0 (.json (.obj []) "") = true ∧
    lacksField Response.fields 0 (.json (.obj []) "") = true ∧
    (getToken emptyObjectEnv alice World.start).1
      = ({ AccessJwt := "", RefreshJwt := "" }, none) ∧
    postRecord emptyObjectEnv alice sampleToken "hello world" World.start
      = (none, { requests := [postRequest emptyObjectEnv alice sampleToken "hello world"],
                 stdout := ["Post: \n"], logged := [] })) ∧
    (trailingEnv.Do (sessionRequest alice)
      = .ok { StatusCode := 200, Body := .json (.obj sessionMembers) "garbage" } ∧
    (Body.json (.obj sessionMembers) "garbage").isValidJSON = false ∧
    (getToken trailingEnv alice World.start).1
      = ({ AccessJwt := "AAA", RefreshJwt := "BBB" }, none) ∧
    (postRecord trailingEnv alice sampleToken "hello world" World.start).1 = none) := by
  refine ⟨⟨rfl, rfl, by decide, by decide, by decide, by decide, by decide⟩,
    ⟨rfl, by decide, by decide, by decide⟩⟩

/-- Claim C3, amended: for every response with status 200, the operation fails
with a decode error (`getToken` returns an error instead of a usable token,
`postRecord` returns an error and reports no post) exactly when the body is one
that `rejects` describes: it does not begin with a well-formed JSON value, or
its first JSON value is neither null nor an object, or that object has a member
whose name matches a field of the target and whose value is neither a string
nor null.  In every other case the operation succeeds, whatever text follows
the first value and whether or not a field is missing: `getToken` returns the
decoded token and no error, `postRecord` prints "Post: " followed by the decoded
uri and returns no error, and a field for which the object has no member is
left empty.  A body that does not begin with a JSON value gives the error of
the decoder itself. -/
theorem undecodable_body_fails (env : Env) (user : User) (token : Token) (text : String)
    (w : World) :
    (∀ body : Body,
      env.Do (sessionRequest user) = .ok { StatusCode := 200, Body := body } →
      (rejects Token.fields body = true →
        ∃ e : Error, e.isDecode = true ∧
          getToken env user w
            = (((Decode Token.fields { AccessJwt := "", RefreshJwt := "" } body).1, some e),
                w.send (sessionRequest user))) ∧
      (rejects Token.fields body = false →
        getToken env user w
          = (((Decode Token.fields { AccessJwt := "", RefreshJwt := "" } body).1, none),
              w.send (sessionRequest user)) ∧
        (lacksField Token.fields 0 body = true →
          (Decode Token.fields { AccessJwt := "", RefreshJwt := "" } body).1.AccessJwt = "") ∧
        (lacksField Token.fields 1 body = true →
          (Decode Token.fields { AccessJwt := "", RefreshJwt := "" } body).1.RefreshJwt
            = ""))) ∧
    (∀ body : Body,
      env.Do (postRequest env user token text) = .ok { StatusCode := 200, Body := body } →
      (rejects Response.fields body = true →
        ∃ e : Error, e.isDecode = true ∧
          postRecord env user token text w
            = (some e, w.send (postRequest env user token text))) ∧
      (rejects Response.fields body = false →
        postRecord env user token text w
          = (none, (w.send (postRequest env user token text)).print
              ("Post: " ++ (Decode Response.fields { Uri := "", Cid := "" } body).1.Uri
                ++ "\n")) ∧
        (lacksField Response.fields 0 body = true →
          (Decode Response.fields { Uri := "", Cid := "" } body).1.Uri = ""))) ∧
    (∀ msg : String,
      env.Do (sessionRequest user) = .ok { StatusCode := 200, Body := .malformed msg } →
      getToken env user w
        = (({ AccessJwt := "", RefreshJwt := "" }, some (.malformedJSON msg)),
            w.send (sessionRequest user))) ∧
    (∀ msg : String,
      env.Do (postRequest env user token text)
        = .ok { StatusCode := 200, Body := .malformed msg } →
      postRecord env user token text w
        = (some (.malformedJSON msg), w.send (postRequest env user token text))) := by
  refine ⟨?_, ?_, ?_, ?_⟩
  · intro body h
    have hg := getToken_decode env user w _ h rfl
    constructor
    · intro hrej
      obtain ⟨t, e, hd, hdec⟩ :=
        Decode_rejected Token.fields { AccessJwt := "", RefreshJwt := "" } body hrej
      refine ⟨e, hdec, ?_⟩
      rw [hg]
      show (Decode Token.fields _ body, _) = _
      rw [hd]
    · intro hacc
      obtain ⟨t, hd, hkeep⟩ :=
        Decode_accepted Token.fields { AccessJwt := "", RefreshJwt := "" } body hacc
      refine ⟨?_, ?_, ?_⟩
      · rw [hg]
        show (Decode Token.fields _ body, _) = _
        rw [hd]
      · intro hl
        rw [hd]
        exact hkeep Token.AccessJwt 0 Token.set_keeps_AccessJwt hl
      · intro hl
        rw [hd]
        exact hkeep Token.RefreshJwt 1 Token.set_keeps_RefreshJwt hl
  · intro body h
    constructor
    · intro hrej
      obtain ⟨t, e, hd, hdec⟩ :=
        Decode_rejected Response.fields { Uri := "", Cid := "" } body hrej
      exact ⟨e, hdec, postRecord_decode_error env user token text w _ t e h rfl hd⟩
    · intro hacc
      obtain ⟨t, hd, hkeep⟩ :=
        Decode_accepted Response.fields { Uri := "", Cid := "" } body hacc
      refine ⟨?_, ?_⟩
      · rw [postRecord_decode_ok env user token text w _ t h rfl hd, hd]
      · intro hl
        rw [hd]
        exact hkeep Response.Uri 0 Response.set_keeps_Uri hl
  · intro msg h
    rw [getToken_decode env user w _ h rfl]
    rfl
  · intro msg h
    exact postRecord_decode_error env user token text w _ { Uri := "", Cid := "" } _ h rfl rfl

/-- Claim C3, amended, on mocked servers: an empty array and an object with
uri = 5 are rejected with a decode error; objects that lack a field are
accepted with that field left empty; a body that is not JSON gives the error
of the decoder. -/
theorem undecodable_body_fails_witness :
    (∃ e : Error, e.isDecode = true ∧
      getToken misfitEnv alice World.start
        = (({ AccessJwt := "", RefreshJwt := "" }, some e),
            World.start.send (sessionRequest alice))) ∧
    (∃ e : Error, e.isDecode = true ∧
      postRecord misfitEnv alice sampleToken "hello world" World.start
        = (some e, World.start.send (postRequest misfitEnv alice sampleToken "hello world"))) ∧
    getToken partialEnv alice World.start
      = (({ AccessJwt := "A", RefreshJwt := "" }, none),
          World.start.send (sessionRequest alice)) ∧
    postRecord partialEnv alice sampleToken "hello world" World.start
      = (none, (World.start.send
          (postRequest partialEnv alice sampleToken "hello world")).print "Post: \n") ∧
    getToken garbageEnv alice World.start
      = (({ AccessJwt := "", RefreshJwt := "" }, some (.malformedJSON "invalid character")),
          World.start.send (sessionRequest alice)) ∧
    postRecord garbageEnv alice sampleToken "hello world" World.start
      = (some (.malformedJSON "invalid character"),
          World.start.send (postRequest garbageEnv alice sampleToken "hello world")) :=
  have m := undecodable_body_fails misfitEnv alice sampleToken "hello world" World.start
  have p := undecodable_body_fails partialEnv alice sampleToken "hello world" World.start
  have g := undecodable_body_fails garbageEnv alice sampleToken "hello world" World.start
  ⟨(m.1 _ rfl).1 (by decide), (m.2.1 _ rfl).1 (by decide),
   ((p.1 _ rfl).2 (by decide)).1, ((p.2.1 _ rfl).2 (by decide)).1,
   g.2.2.1 "invalid character" rfl, g.2.2.2 "invalid character" rfl⟩

/-- Claim C4: for every credential pair and every post text, empty or not, when
the session endpoint answers with a status s other than 200, `run` returns the
error "status code: s" having issued the session request only, so `postRecord`
is not invoked and nothing is sent to the record-creation endpoint, and the
program started without `-v` ends with status 1, a non-zero status, after
logging that error. -/
theorem auth_failure_stops_program (env : Env) (user : User) (text : String) (s : Int)
    (body : Body) (hs : s ≠ 200)
    (hresp : env.Do (sessionRequest user) = .ok { StatusCode := s, Body := body }) :
    (∀ w : World, run env user text w
      = (some (.errorf ("status code: " ++ fmtD s)), w.send (sessionRequest user))) ∧
    (program env (runConfig user text)).1 = 1 ∧
    (program env (runConfig user text)).1 ≠ 0 ∧
    (∀ r ∈ (program env (runConfig user text)).2.requests, r.URL ≠ postUrl) ∧
    (program env (runConfig user text)).2.stdout = [] ∧
    (user.Identifier ≠ "" → user.Password ≠ "" →
      program env (runConfig user text)
        = (1, { requests := [sessionRequest user], stdout := [],
                logged := ["Error: status code: " ++ fmtD s] })) := by
  have hrun : ∀ w : World, run env user text w
      = (some (.errorf ("status code: " ++ fmtD s)), w.send (sessionRequest user)) := by
    intro w
    exact run_auth_error env user text w { AccessJwt := "", RefreshJwt := "" } _
      (by rw [getToken_status env user w _ hresp hs])
  have hprog : user.Identifier ≠ "" → user.Password ≠ "" →
      program env (runConfig user text)
        = (1, { requests := [sessionRequest user], stdout := [],
                logged := ["Error: status code: " ++ fmtD s] }) := by
    intro hid hpw
    rw [program_runConfig env user text hid hpw, hrun World.start]
    rfl
  by_cases hcred : user.Identifier = "" ∨ user.Password = ""
  · have hf := program_fatal env (runConfig user text) hcred
    refine ⟨hrun, ?_, ?_, ?_, ?_, hprog⟩
    · rw [hf]
    · rw [hf]; exact Nat.one_ne_zero
    · rw [hf]; intro r hr; exact absurd hr (List.not_mem_nil r)
    · rw [hf]
  · have hid : user.Identifier ≠ "" := fun h => hcred (Or.inl h)
    have hpw : user.Password ≠ "" := fun h => hcred (Or.inr h)
    have hp := hprog hid hpw
    refine ⟨hrun, ?_, ?_, ?_, ?_, hprog⟩
    · rw [hp]
    · rw [hp]; exact Nat.one_ne_zero
    · rw [hp]
      intro r hr
      rw [List.mem_singleton.1 hr]
      show url ≠ postUrl
      decide
    · rw [hp]

/-- Claim C4 at status 401, for alice and the text "hello world": the program
ends with status 1 after the session request alone and logs
"Error: status code: 401". -/
theorem auth_failure_stops_program_witness :
    run deniedEnv alice "hello world" World.start
      = (some (.errorf "status code: 401"), World.start.send (sessionRequest alice)) ∧
    program deniedEnv (runConfig alice "hello world")
      = (1, { requests := [sessionRequest alice], stdout := [],
              logged := ["Error: status code: 401"] }) :=
  have h := auth_failure_stops_program deniedEnv alice "hello world" 401 emptyObject
    (by decide) rfl
  ⟨h.1 World.start, h.2.2.2.2.2 (by decide) (by decide)⟩

/-- Claim C5: for every non-empty identifier and secret, every non-empty post
text and every record-creation response with status 200 whose body decodes
into uri u and cid c, after an authentication that returned a token and no
error, `postRecord` returns no error and prints the line "Post: u", and the
program started without `-v` ends with status 0 having written exactly that
line to standard output and nothing to the log. -/
theorem post_success_prints_uri (env : Env) (user : User) (text : String) (token : Token)
    (body : Body) (u c : String)
    (hid : user.Identifier ≠ "") (hpw : user.Password ≠ "") (htext : text ≠ "")
    (hauth : (getToken env user World.start).1 = (token, none))
    (hresp : env.Do (postRequest env user token text)
      = .ok { StatusCode := 200, Body := body })
    (hdec : Decode Response.fields { Uri := "", Cid := "" } body
      = ({ Uri := u, Cid := c }, none)) :
    (∀ w : World, postRecord env user token text w
      = (none, (w.send (postRequest env user token text)).print ("Post: " ++ u ++ "\n"))) ∧
    program env (runConfig user text)
      = (0, { requests := [sessionRequest user, postRequest env user token text],
              stdout := ["Post: " ++ u ++ "\n"], logged := [] }) := by
  have hpost : ∀ w : World, postRecord env user token text w
      = (none, (w.send (postRequest env user token text)).print ("Post: " ++ u ++ "\n")) :=
    fun w => postRecord_decode_ok env user token text w _ _ hresp rfl hdec
  refine ⟨hpost, ?_⟩
  rw [program_runConfig env user text hid hpw,
    run_post env user text World.start token hauth htext, hpost]
  rfl

/-- Claim C5 on the literal scenario: alice posts "hello world", the record is
created with uri at://did:plc:xyz/app.bsky.feed.post/123, the program prints
that uri in the line "Post: ..." and ends with status 0. -/
theorem post_success_prints_uri_witness :
    program happyEnv (runConfig alice "hello world")
      = (0, { requests := [sessionRequest alice,
                postRequest happyEnv alice sampleToken "hello world"],
              stdout := ["Post: at://did:plc:xyz/app.bsky.feed.post/123\n"],
              logged := [] }) :=
  (post_success_prints_uri happyEnv alice "hello world" sampleToken recordBody
    "at://did:plc:xyz/app.bsky.feed.post/123" "bafy..."
    (by decide) (by decide) (by decide) (by decide) rfl (by decide)).2

/-- Claim C6: when the post text is the empty string and authentication returns
a token and no error, `run` returns no error having issued the session request
only, so `postRecord` is not invoked, and the program started without `-v`
with non-empty credentials ends with status 0 having issued exactly one HTTP
request, the session request, and having printed and logged nothing.  The
session request is the POST of the JSON-encoded credentials to the
session-creation endpoint. -/
theorem empty_text_skips_post (env : Env) (user : User) (token : Token)
    (hid : user.Identifier ≠ "") (hpw : user.Password ≠ "")
    (hauth : (getToken env user World.start).1 = (token, none)) :
    (∀ w : World, run env user "" w = (none, w.send (sessionRequest user))) ∧
    program env (runConfig user "")
      = (0, { requests := [sessionRequest user], stdout := [], logged := [] }) ∧
    (program env (runConfig user "")).2.requests.length = 1 ∧
    sessionRequest user
      = { Method := "POST",
          URL := "https://bsky.social/xrpc/com.atproto.server.createSession",
          Header := [("Content-Type", "application/json")],
          Body := .user user } := by
  have hrun : ∀ w : World, run env user "" w = (none, w.send (sessionRequest user)) := by
    intro w
    exact run_no_text env user w token
      (by rw [getToken_result_world env user w World.start]; exact hauth)
  have hp : program env (runConfig user "")
      = (0, { requests := [sessionRequest user], stdout := [], logged := [] }) := by
    rw [program_runConfig env user "" hid hpw, hrun World.start]
    rfl
  exact ⟨hrun, hp, by rw [hp]; rfl, rfl⟩

/-- Claim C6 for alice on a server that accepts the credentials: one request,
status 0. -/
theorem empty_text_skips_post_witness :
    program happyEnv (runConfig alice "")
      = (0, { requests := [sessionRequest alice], stdout := [], logged := [] }) :=
  (empty_text_skips_post happyEnv alice sampleToken (by decide) (by decide) (by decide)).2.1

/-- Claim C7, as stated, fails at status 401: the program reports the same
error when the session endpoint answers 401 as when authentication succeeds and
the record-creation endpoint answers 401: the same error value from `run`, the
same logged message and the same exit status. -/
theorem status_error_same_on_both_endpoints :
    deniedEnv.Do (sessionRequest alice)
      = .ok { StatusCode := 401, Body := emptyObject } ∧
    (getToken postDeniedEnv alice World.start).1 = (sampleToken, none) ∧
    postDeniedEnv.Do (postRequest postDeniedEnv alice sampleToken "hello world")
      = .ok { StatusCode := 401, Body := emptyObject } ∧
    (run deniedEnv alice "hello world" World.start).1
      = (run postDeniedEnv alice "hello world" World.start).1 ∧
    (program deniedEnv (runConfig alice "hello world")).2.logged
      = (program postDeniedEnv (runConfig alice "hello world")).2.logged ∧
    (program deniedEnv (runConfig alice "hello world")).2.logged
      = ["Error: status code: 401"] ∧
    (program deniedEnv (runConfig alice "hello world")).1
      = (program postDeniedEnv (runConfig alice "hello world")).1 := by
  refine ⟨rfl, by decide, rfl, by decide, by decide, by decide, by decide⟩

/-- Claim C7, amended: for every status code s other than 200, the error the
program reports when the session endpoint answers s is the same as the error
it reports when authentication succeeds and the record-creation endpoint
answers s: in both cases `run` returns the error with message "status code: s",
the program logs "Error: status code: s" and ends with status 1.  The two cases
differ in the requests issued only: the session request alone in the first, the
session request followed by the record-creation request in the second. -/
theorem status_error_indistinguishable (envA envB : Env) (user : User) (text : String)
    (token : Token) (s : Int) (bodyA bodyB : Body)
    (hs : s ≠ 200) (hid : user.Identifier ≠ "") (hpw : user.Password ≠ "")
    (htext : text ≠ "")
    (hA : envA.Do (sessionRequest user) = .ok { StatusCode := s, Body := bodyA })
    (hauth : (getToken envB user World.start).1 = (token, none))
    (hB : envB.Do (postRequest envB user token text)
      = .ok { StatusCode := s, Body := bodyB }) :
    (run envA user text World.start).1 = some (.errorf ("status code: " ++ fmtD s)) ∧
    (run envB user text World.start).1 = some (.errorf ("status code: " ++ fmtD s)) ∧
    program envA (runConfig user text)
      = (1, { requests := [sessionRequest user], stdout := [],
              logged := ["Error: status code: " ++ fmtD s] }) ∧
    program envB (runConfig user text)
      = (1, { requests := [sessionRequest user, postRequest envB user token text],
              stdout := [], logged := ["Error: status code: " ++ fmtD s] }) := by
  have hrunA : run envA user text World.start
      = (some (.errorf ("status code: " ++ fmtD s)), World.start.send (sessionRequest user)) :=
    run_auth_error envA user text World.start { AccessJwt := "", RefreshJwt := "" } _
      (by rw [getToken_status envA user World.start _ hA hs])
  have hrunB : run envB user text World.start
      = (some (.errorf ("status code: " ++ fmtD s)),
          (World.start.send (sessionRequest user)).send (postRequest envB user token text)) := by
    rw [run_post envB user text World.start token hauth htext]
    exact postRecord_status envB user token text _ _ hB hs
  refine ⟨by rw [hrunA], by rw [hrunB], ?_, ?_⟩
  · rw [program_runConfig envA user text hid hpw, hrunA]
    rfl
  · rw [program_runConfig envB user text hid hpw, hrunB]
    rfl

/-- Claim C7, amended, at status 401 for alice: the same log line and exit
status in both cases, one request against two. -/
theorem status_error_indistinguishable_witness :
    program deniedEnv (runConfig alice "hello world")
      = (1, { requests := [sessionRequest alice], stdout := [],
              logged := ["Error: status code: 401"] }) ∧
    program postDeniedEnv (runConfig alice "hello world")
      = (1, { requests := [sessionRequest alice,
                postRequest postDeniedEnv alice sampleToken "hello world"],
              stdout := [], logged := ["Error: status code: 401"] }) :=
  have h := status_error_indistinguishable deniedEnv postDeniedEnv alice "hello world"
    sampleToken 401 emptyObject emptyObject (by decide) (by decide) (by decide) (by decide)
    rfl (by decide) rfl
  ⟨h.2.2.1, h.2.2.2⟩

/-- Claim C8: for every token and every text, the empty string included,
`postRecord` issues one request, a POST to the record-creation endpoint, whose
body is the JSON encoding of the envelope with repo equal to the identifier of
the configured credentials, collection "app.bsky.feed.post", record.text equal
to the given text unchanged and record.createdAt equal to the clock reading
taken in the call; the body is the same for every token. -/
theorem postRecord_request_body (env : Env) (user : User) (token : Token) (text : String)
    (w : World) :
    (postRecord env user token text w).2.requests
      = w.requests ++ [postRequest env user token text] ∧
    (postRequest env user token text).Method = "POST" ∧
    (postRequest env user token text).URL
      = "https://bsky.social/xrpc/com.atproto.repo.createRecord" ∧
    (postRequest env user token text).Body
      = .postData { Repo := user.Identifier, Collection := "app.bsky.feed.post",
                    Record := { Text := text, CreatedAt := env.Now } } ∧
    (postRequest env user token "").Body
      = .postData { Repo := user.Identifier, Collection := "app.bsky.feed.post",
                    Record := { Text := "", CreatedAt := env.Now } } ∧
    (∀ token2 : Token,
      (postRequest env user token2 text).Body = (postRequest env user token text).Body) :=
  ⟨postRecord_requests env user token text w, rfl, rfl, rfl, rfl, fun _ => rfl⟩

/-- Claim C9: for every token, also one whose accessJwt is empty, `postRecord`
issues its request without validating the token, with exactly the headers
Authorization, equal to "Bearer " followed by accessJwt, and Content-Type,
equal to "application/json"; for an empty accessJwt the Authorization header is
exactly "Bearer ". -/
theorem postRecord_request_headers (env : Env) (user : User) (token : Token)
    (text refresh : String) (w : World) :
    (postRecord env user token text w).2.requests
      = w.requests ++ [postRequest env user token text] ∧
    (postRequest env user token text).Header
      = [("Authorization", "Bearer " ++ token.AccessJwt),
         ("Content-Type", "application/json")] ∧
    (postRequest env user token text).Header.Get "Authorization"
      = "Bearer " ++ token.AccessJwt ∧
    (postRequest env user token text).Header.Get "Content-Type" = "application/json" ∧
    (postRecord env user { AccessJwt := "", RefreshJwt := refresh } text w).2.requests
      = w.requests ++ [postRequest env user { AccessJwt := "", RefreshJwt := refresh } text] ∧
    (postRequest env user { AccessJwt := "", RefreshJwt := refresh } text).Header.Get
      "Authorization" = "Bearer " := by
  refine ⟨postRecord_requests env user token text w, rfl, ?_, ?_,
    postRecord_requests env user _ text w, ?_⟩
  · simp [postRequest, http.Header.Set, http.Header.Get]
  · simp [postRequest, http.Header.Set, http.Header.Get]
  · simp [postRequest, http.Header.Set, http.Header.Get]

/-- Claim C10: for every configuration in which the identifier or the secret is
empty, the program ends in `init` with status 1 after logging
"BSKY_USERNAME and BSKY_PASSWORD are required"; `getToken` does not run and no
HTTP request is issued, whatever the flags and the server are. -/
theorem empty_credentials_are_fatal (env : Env) (cfg : Config)
    (h : cfg.BSKY_USERNAME = "" ∨ cfg.BSKY_PASSWORD = "") :
    program env cfg
      = (1, { requests := [], stdout := [],
              logged := ["BSKY_USERNAME and BSKY_PASSWORD are required"] }) ∧
    (program env cfg).2.requests = [] := by
  have hf := program_fatal env cfg h
  exact ⟨hf, by rw [hf]⟩

/-- Claim C10 for a configuration with an identifier and no secret, on a server
that would accept any request. -/
theorem empty_credentials_are_fatal_witness :
    program happyEnv { versionFlag := false, postFlag := "hello world",
                       BSKY_USERNAME := "alice.bsky.social", BSKY_PASSWORD := "" }
      = (1, { requests := [], stdout := [],
              logged := ["BSKY_USERNAME and BSKY_PASSWORD are required"] }) :=
  (empty_credentials_are_fatal happyEnv _ (Or.inr rfl)).1

end BskyAutopost
